import Mathlib

/-!
Verification of the docx-remediation front-end (TypeScript/React) against its
specification. The definitions below are a shallow embedding of the client
code: component state becomes Lean structures, event handlers become explicit
state-transition functions parameterised by the outcome of the network request
they await (`Except String α`), and the REST client functions become request
builders. Sources:
  - src/frontend/src/App.tsx (`App` component and its handlers)
  - src/frontend/src/services/api.ts (both variants of the API client)
  - src/frontend/src/components/DocumentViewer/index.tsx
  - src/frontend/src/components/IssuePanel/index.tsx
  - src/frontend/src/components/IssueDetail/index.tsx (incl. DocumentUploader)
  - src/unnamed/part_000 (AI-suggestion variant of IssueDetail)
  - src/unnamed/part_001 (earlier variant of App)
  - src/frontend/src/types/index.ts (shared data model)
-/

/-! ## Data model (src/frontend/src/types/index.ts) -/

/-- `Document.status` lifecycle tag. -/
inductive DocStatus where
  | uploaded
  | scanning
  | ready
  | remediating
deriving DecidableEq, Repr

/-- `Document` from types/index.ts. -/
structure Document where
  id : String
  filename : String
  file_path : String
  upload_date : String
  status : DocStatus
deriving DecidableEq, Repr

/-- The `details : Record<string, any>` map of an issue; the client only ever
reads `original_content` from it (an absent key is `none`, mirroring JS
`undefined`). -/
structure IssueDetails where
  original_content : Option String
deriving DecidableEq, Repr

/-- `AccessibilityIssue` from types/index.ts. -/
structure AccessibilityIssue where
  id : String
  document_id : String
  clause : String
  description : String
  status : String
  wcag_level : String
  details : IssueDetails
  element_xpath : String
  is_fixed : Bool
deriving DecidableEq, Repr

/-- The `change_type` tag of a staged change: manual or suggested. -/
inductive ChangeType where
  | manual
  | suggested
deriving DecidableEq, Repr

/-- `StagedChange` from types/index.ts. -/
structure StagedChange where
  id : String
  issue_id : String
  original_content : String
  new_content : String
  change_type : ChangeType
  created_at : String
  is_fixed : Option Bool
deriving DecidableEq, Repr

/-! ## API client (src/frontend/src/services/api.ts, both variants) -/

inductive HttpMethod where
  | get
  | post
  | delete
deriving DecidableEq, Repr

/-- An HTTP request as the axios client issues it: method plus the path
relative to the `/api` base URL. -/
structure Request where
  method : HttpMethod
  path : String
deriving DecidableEq, Repr

/-- `documentApi.upload` (both variants): POST /documents/upload. -/
def documentApi_upload_request : Request :=
  { method := .post, path := "/documents/upload" }

/-- `documentApi.list` (both variants): GET /documents. -/
def documentApi_list_request : Request :=
  { method := .get, path := "/documents" }

/-- `documentApi.render` (first variant only): GET /documents/$-id/render. -/
def documentApi_render_request (documentId : String) : Request :=
  { method := .get, path := "/documents/" ++ documentId ++ "/render" }

/-- `documentApi.getDocumentFile` (second variant): GET /documents/$-id/file. -/
def documentApi_getDocumentFile_request (documentId : String) : Request :=
  { method := .get, path := "/documents/" ++ documentId ++ "/file" }

/-- `documentApi.scan` (both variants): GET /documents/$-id/scan. -/
def documentApi_scan_request (documentId : String) : Request :=
  { method := .get, path := "/documents/" ++ documentId ++ "/scan" }

/-- `issuesApi.getDocumentIssues` (both variants): GET /issues/$-documentId. -/
def issuesApi_getDocumentIssues_request (documentId : String) : Request :=
  { method := .get, path := "/issues/" ++ documentId }

/-- `issuesApi.suggestFix` (second variant): POST /issues/$-id/suggest-fix. -/
def issuesApi_suggestFix_request (issueId : String) : Request :=
  { method := .post, path := "/issues/" ++ issueId ++ "/suggest-fix" }

/-- `issuesApi.stageChange` (second variant): POST /issues/$-id/stage-change. -/
def issuesApi_stageChange_request (issueId : String) : Request :=
  { method := .post, path := "/issues/" ++ issueId ++ "/stage-change" }

/-- `changesApi.getStagedChanges` (second variant): GET /changes/$-documentId. -/
def changesApi_getStagedChanges_request (documentId : String) : Request :=
  { method := .get, path := "/changes/" ++ documentId }

/-- `changesApi.applyChanges` (second variant):
POST /documents/$-id/apply-changes. -/
def changesApi_applyChanges_request (documentId : String) : Request :=
  { method := .post, path := "/documents/" ++ documentId ++ "/apply-changes" }

/-- `changesApi.clearStagedChanges` (second variant):
POST /changes/$-id/clear. -/
def changesApi_clearStagedChanges_request (documentId : String) : Request :=
  { method := .post, path := "/changes/" ++ documentId ++ "/clear" }

/-- `changesApi.removeChange` (second variant): DELETE /changes/$-id. -/
def changesApi_removeChange_request (changeId : String) : Request :=
  { method := .delete, path := "/changes/" ++ changeId }

/-- `healthApi.check` (both variants): GET /health. -/
def healthApi_check_request : Request :=
  { method := .get, path := "/health" }

/-- The JSON body `issuesApi.stageChange` posts. -/
structure StageChangeBody where
  new_content : String
  change_type : ChangeType
  fixed_snippet : Option String
deriving DecidableEq, Repr

/-- Body built by `issuesApi.stageChange`, whose TypeScript signature gives
`changeType` the default value manual. The default parameter is modelled by
an `Option ChangeType` argument defaulted with `getD`: a caller passing
`none` (omitting the argument) gets manual. -/
def stageChangeBody (newContent : String) (changeType : Option ChangeType)
    (fixedSnippet : Option String) : StageChangeBody :=
  { new_content := newContent
    change_type := changeType.getD ChangeType.manual
    fixed_snippet := fixedSnippet }

/-! ### Endpoint templates

Every path in api.ts is a template literal of the shape
`literal` or `literal ++ arg ++ literal`; `PathPattern` records that template
structure so the client surface can be compared, endpoint by endpoint, with
the REST surface listed in the spec. -/

inductive PathPattern where
  | exact (p : String)
  | around (pre post : String)
deriving DecidableEq, Repr

/-- Instantiate a path template at a concrete id/argument. -/
def instantiatePath : PathPattern → String → String
  | .exact p, _ => p
  | .around pre post, arg => pre ++ arg ++ post

structure Endpoint where
  method : HttpMethod
  pattern : PathPattern
deriving DecidableEq, Repr

/-- The endpoint of `documentApi.render` (first api.ts variant). -/
def renderEndpoint : Endpoint :=
  { method := .get, pattern := .around "/documents/" "/render" }

/-- Every endpoint some API-client function of either api.ts variant issues a
request to, read off the `api.get/post/delete` calls in the source. -/
def clientEndpoints : List Endpoint :=
  [ { method := .post, pattern := .exact "/documents/upload" }
  , { method := .get, pattern := .exact "/documents" }
  , { method := .get, pattern := .around "/documents/" "/render" }
  , { method := .get, pattern := .around "/documents/" "/file" }
  , { method := .get, pattern := .around "/documents/" "/scan" }
  , { method := .get, pattern := .around "/issues/" "" }
  , { method := .post, pattern := .around "/issues/" "/suggest-fix" }
  , { method := .post, pattern := .around "/issues/" "/stage-change" }
  , { method := .get, pattern := .around "/changes/" "" }
  , { method := .post, pattern := .around "/documents/" "/apply-changes" }
  , { method := .post, pattern := .around "/changes/" "/clear" }
  , { method := .delete, pattern := .around "/changes/" "" }
  , { method := .get, pattern := .exact "/health" } ]

/-- Modelled from the spec: the REST surface listed in section 6 EXTERNAL
INTERFACES of spec.md (the twelve endpoints from `POST /documents/upload`
through `GET /health`). -/
def specEndpoints : List Endpoint :=
  [ { method := .post, pattern := .exact "/documents/upload" }
  , { method := .get, pattern := .exact "/documents" }
  , { method := .get, pattern := .around "/documents/" "/file" }
  , { method := .get, pattern := .around "/documents/" "/scan" }
  , { method := .get, pattern := .around "/issues/" "" }
  , { method := .post, pattern := .around "/issues/" "/suggest-fix" }
  , { method := .post, pattern := .around "/issues/" "/stage-change" }
  , { method := .get, pattern := .around "/changes/" "" }
  , { method := .post, pattern := .around "/documents/" "/apply-changes" }
  , { method := .post, pattern := .around "/changes/" "/clear" }
  , { method := .delete, pattern := .around "/changes/" "" }
  , { method := .get, pattern := .exact "/health" } ]

/-! ## Server response shapes (only the fields the client reads) -/

/-- Response of POST /issues/$-id/stage-change, as read by `App.handleFixSave`
(`change_id` and `created_at`; the diff payload is never consumed by App). -/
structure StageChangeResponse where
  change_id : String
  created_at : String
deriving DecidableEq, Repr

/-- Response of POST /documents/$-id/apply-changes, as read by
`App.handleApplyChanges` (`success`, plus `message` for logging). -/
structure ApplyChangesResult where
  success : Bool
  message : String
deriving DecidableEq, Repr

/-- Response of POST /changes/$-id/clear. -/
structure ClearChangesResult where
  success : Bool
  message : String
deriving DecidableEq, Repr

/-- Response of DELETE /changes/$-id. -/
structure RemoveChangeResult where
  change_id : String
  status : String
deriving DecidableEq, Repr

/-! ## App component (src/frontend/src/App.tsx, src/unnamed/part_001) -/

/-- The `useState` cells of `App` (the diff-overlay state is omitted: no claim
touches it). Note that `App` holds no error/alert state cell at all. -/
structure AppState where
  currentDocument : Option Document
  selectedIssue : Option AccessibilityIssue
  stagedChanges : List StagedChange
  isApplyingChanges : Bool
deriving DecidableEq, Repr

/-- A user-observable side effect of a handler. `consoleLog`/`consoleError`
are developer-console writes (invisible in the UI); `inlineAlert` stands for
an error surfaced to the user through a rendered `<Alert>`. -/
inductive UiEffect where
  | consoleLog (msg : String)
  | consoleError (msg : String)
  | inlineAlert (msg : String)
deriving DecidableEq, Repr

/-- Whether an effect is a user-visible inline alert. -/
def isInlineAlert : UiEffect → Bool
  | .inlineAlert _ => true
  | _ => false

/-- `App.handleDocumentUploaded`: store the uploaded document, clear the issue
selection, discard all locally staged changes. -/
def handleDocumentUploaded (d : Document) (s : AppState) : AppState :=
  { s with currentDocument := some d
           selectedIssue := none
           stagedChanges := [] }

/-- `App.handleIssueSelect`. -/
def handleIssueSelect (issue : AccessibilityIssue) (s : AppState) : AppState :=
  { s with selectedIssue := some issue }

/-- `App.handleFixSave`, parameterised by the outcome of
`issuesApi.stageChange`. Guard: returns untouched when no issue is selected or
no document is loaded. On success the staged change is appended to the local
list; on failure the handler only writes to the console. -/
def handleFixSave (s : AppState) (issueId newContent : String)
    (changeType : ChangeType)
    (outcome : Except String StageChangeResponse) :
    AppState × List UiEffect :=
  match s.selectedIssue, s.currentDocument with
  | some issue, some _ =>
    match outcome with
    | .ok resp =>
      ({ s with stagedChanges := s.stagedChanges ++
            [ { id := resp.change_id
                issue_id := issueId
                original_content := issue.details.original_content.getD ""
                new_content := newContent
                change_type := changeType
                created_at := resp.created_at
                is_fixed := none } ] },
       [UiEffect.consoleLog "Change staged successfully"])
    | .error e =>
      (s, [UiEffect.consoleError ("Failed to stage change: " ++ e)])
  | _, _ => (s, [])

/-- `App.handleApplyChanges`, parameterised by the outcome of
`changesApi.applyChanges`. Guard: no-op without a current document. The local
staged-changes list is cleared only in the `result.success` branch; the
`finally` block resets `isApplyingChanges` in every outcome. -/
def handleApplyChanges (s : AppState)
    (outcome : Except String ApplyChangesResult) :
    AppState × List UiEffect :=
  match s.currentDocument with
  | none => (s, [])
  | some _ =>
    let s1 := { s with isApplyingChanges := true }
    match outcome with
    | .ok result =>
      if result.success then
        ({ s1 with stagedChanges := [], isApplyingChanges := false },
         [UiEffect.consoleLog ("Changes applied successfully: " ++ result.message)])
      else
        ({ s1 with isApplyingChanges := false },
         [UiEffect.consoleError "Failed to apply changes"])
    | .error e =>
      ({ s1 with isApplyingChanges := false },
       [UiEffect.consoleError ("Error applying changes: " ++ e)])

/-- `App.handleClearChanges`: the catch branch performs the same local update
(`setStagedChanges([])`) as the success path. -/
def handleClearChanges (s : AppState)
    (outcome : Except String ClearChangesResult) :
    AppState × List UiEffect :=
  match s.currentDocument with
  | none => (s, [])
  | some _ =>
    match outcome with
    | .ok _ =>
      ({ s with stagedChanges := [] },
       [UiEffect.consoleLog "All staged changes cleared"])
    | .error e =>
      ({ s with stagedChanges := [] },
       [UiEffect.consoleError ("Failed to clear staged changes: " ++ e)])

/-- `App.handleRemoveChange`: both the success path and the catch branch
filter the change with the given id out of the local list. -/
def handleRemoveChange (s : AppState) (changeId : String)
    (outcome : Except String RemoveChangeResult) :
    AppState × List UiEffect :=
  match outcome with
  | .ok _ =>
    ({ s with stagedChanges := s.stagedChanges.filter (fun c => c.id != changeId) },
     [UiEffect.consoleLog ("Staged change removed: " ++ changeId)])
  | .error e =>
    ({ s with stagedChanges := s.stagedChanges.filter (fun c => c.id != changeId) },
     [UiEffect.consoleError ("Failed to remove staged change: " ++ e)])

/-- `String.prototype.trim()`: strip leading and trailing whitespace
(structural on the character list, so it evaluates in the kernel). -/
def jsTrim (s : String) : String :=
  String.mk
    (((s.data.dropWhile Char.isWhitespace).reverse.dropWhile
        Char.isWhitespace).reverse)

/-! ## IssuePanel (src/frontend/src/components/IssuePanel/index.tsx) -/

namespace IssuePanel

/-- The `useState` cells of `IssuePanel`. -/
structure PanelState where
  issues : List AccessibilityIssue
  isLoading : Bool
  error : Option String
  isScanning : Bool
deriving DecidableEq, Repr

/-- Start of `loadIssues` (after the document guard):
`setIsLoading(true); setError(null)`. -/
def loadIssuesStart (s : PanelState) : PanelState :=
  { s with isLoading := true, error := none }

/-- Resolution of `loadIssues`: on success store the issues, on failure
`setError(String(err))`; the `finally` block resets `isLoading`. -/
def loadIssuesFinish (outcome : Except String (List AccessibilityIssue))
    (s : PanelState) : PanelState :=
  let s1 := match outcome with
    | .ok documentIssues => { s with issues := documentIssues }
    | .error e => { s with error := some e }
  { s1 with isLoading := false }

/-- `IssuePanel.loadIssues`, parameterised by the outcome of
`issuesApi.getDocumentIssues`. Guard: no-op without a document. -/
def loadIssues (doc : Option Document)
    (outcome : Except String (List AccessibilityIssue))
    (s : PanelState) : PanelState :=
  match doc with
  | none => s
  | some _ => loadIssuesFinish outcome (loadIssuesStart s)

/-- Start of `handleScanDocument` (after the document guard):
`setIsScanning(true); setError(null)`. -/
def scanStart (s : PanelState) : PanelState :=
  { s with isScanning := true, error := none }

/-- Resolution of `handleScanDocument`: on scan success the handler awaits a
reload of the issues (whose own failure is caught inside `loadIssues`); on
scan failure `setError(String(err))`; the `finally` block resets
`isScanning`. -/
def scanFinish (doc : Option Document) (scanOutcome : Except String Unit)
    (loadOutcome : Except String (List AccessibilityIssue))
    (s : PanelState) : PanelState :=
  let s1 := match scanOutcome with
    | .ok _ => loadIssues doc loadOutcome s
    | .error e => { s with error := some e }
  { s1 with isScanning := false }

/-- `IssuePanel.handleScanDocument`, parameterised by the outcomes of
`documentApi.scan` and of the subsequent `loadIssues` reload. -/
def handleScanDocument (doc : Option Document)
    (scanOutcome : Except String Unit)
    (loadOutcome : Except String (List AccessibilityIssue))
    (s : PanelState) : PanelState :=
  match doc with
  | none => s
  | some _ => scanFinish doc scanOutcome loadOutcome (scanStart s)

/-- The render condition of the panel
spinner: the JSX renders the centered `CircularProgress` under
`isLoading && ...`. -/
def showsLoadingSpinner (s : PanelState) : Bool := s.isLoading

/-- The render condition of the scan-button spinner: `startIcon` is a
`CircularProgress` exactly when `isScanning`. -/
def scanButtonShowsSpinner (s : PanelState) : Bool := s.isScanning

/-- The render condition of the inline error alert: the JSX renders
`<Alert severity="error">` under `error && ...`. -/
def showsErrorAlert (s : PanelState) : Bool := s.error.isSome

/-- The message the inline alert displays (the `error` state cell). -/
def errorAlertText (s : PanelState) : Option String := s.error

end IssuePanel

/-! ## DocumentViewer (src/frontend/src/components/DocumentViewer/index.tsx,
first variant: docx-preview rendering plus issue highlighting) -/

namespace DocumentViewer

/-- Drop `p` from the front of `s`, if `p` is literally there. -/
def dropPre : List Char → List Char → Option (List Char)
  | [], s => some s
  | _ :: _, [] => none
  | p :: ps, c :: cs => if p = c then dropPre ps cs else none

/-- After the first pattern character already matched: match the rest of the
prefix `ps`, then a nonempty greedy digit run (JS `\d+`), then the suffix
`post`; return the digits and the remaining input. -/
def numMatch (ps post : List Char) (s : List Char) :
    Option (List Char × List Char) :=
  match dropPre ps s with
  | none => none
  | some r1 =>
    match r1.takeWhile Char.isDigit with
    | [] => none
    | ds =>
      match dropPre post (r1.dropWhile Char.isDigit) with
      | none => none
      | some r3 => some (ds, r3)

/-- Global replacement of the pattern `p :: ps`+digits+`post` by
`rep1`+digits+`rep2`, scanning left to right and continuing after each match,
like `String.prototype.replace` with a `g`-flagged regex. The fuel argument
(instantiated with the input length, which bounds the number of steps) makes
the recursion structural. -/
def replaceNumAux (p : Char) (ps post rep1 rep2 : List Char) :
    Nat → List Char → List Char
  | 0, s => s
  | _ + 1, [] => []
  | fuel + 1, c :: rest =>
    if c = p then
      match numMatch ps post rest with
      | some (ds, rem) =>
        rep1 ++ ds ++ rep2 ++ replaceNumAux p ps post rep1 rep2 fuel rem
      | none => c :: replaceNumAux p ps post rep1 rep2 fuel rest
    else c :: replaceNumAux p ps post rep1 rep2 fuel rest

/-- `s.replace(/pre(\d+)post/g, rep1 ++ digits ++ rep2)`. -/
def replaceNum (pre post rep1 rep2 : String) (s : List Char) : List Char :=
  match pre.data with
  | [] => s
  | p :: ps => replaceNumAux p ps post.data rep1.data rep2.data s.length s

/-- Global literal replacement of `p :: ps` by `rep`, scanning left to right
and continuing after each match. -/
def replaceLitAux (p : Char) (ps rep : List Char) :
    Nat → List Char → List Char
  | 0, s => s
  | _ + 1, [] => []
  | fuel + 1, c :: rest =>
    if c = p then
      match dropPre ps rest with
      | some rem => rep ++ replaceLitAux p ps rep fuel rem
      | none => c :: replaceLitAux p ps rep fuel rest
    else c :: replaceLitAux p ps rep fuel rest

/-- `s.replace(/pat/g, rep)` for a literal pattern `pat`. -/
def replaceLit (pat rep : String) (s : List Char) : List Char :=
  match pat.data with
  | [] => s
  | p :: ps => replaceLitAux p ps rep.data s.length s

/-- `convertXPathToSelector`: the seven in-order global replacements of the
source, applied to the XPath-like locator. The try/catch of the source is
dead (string replacement cannot throw), so the `string | null` return is
always a string here. -/
def convertXPathToSelector (xpath : String) : String :=
  let s1 := replaceNum "//w:tbl[" "]" "table:nth-of-type(" ")" xpath.data
  let s2 := replaceNum "//w:p[" "]" "p:nth-of-type(" ")" s1
  let s3 := replaceNum "/w:r[" "]" " span:nth-of-type(" ")" s2
  let s4 := replaceLit "/w:t" "" s3
  let s5 := replaceNum "/w:tr[" "]" " tr:nth-of-type(" ")" s4
  let s6 := replaceNum "/w:tc[" "]" " td:nth-of-type(" ")" s5
  let s7 := replaceLit "w:" "" s6
  String.mk s7

/-- An element of the rendered document. -/
structure HtmlElement where
  tag : String
deriving DecidableEq, Repr

/-- The rendered container, abstracted as the DOM queries the component runs
against it. `query` is `container.querySelector` (a throwing invalid selector
is `none`, as the catch returns null); `exactText` is the TreeWalker search
for a text node whose trimmed content equals the argument; `partialText` is
the fallback `querySelectorAll` scan for an element whose text contains the
argument. -/
structure Container where
  query : String → Option HtmlElement
  exactText : String → Option HtmlElement
  partialText : String → Option HtmlElement

/-- `findElementBySelector`: convert the XPath, bail out on a falsy selector,
otherwise query the container. -/
def findElementBySelector (xpath : String) (c : Container) :
    Option HtmlElement :=
  let selector := convertXPathToSelector xpath
  if selector = "" then none else c.query selector

/-- `findElementByContent`: exact trimmed text-node match first, then the
substring `includes` fallback, both against the trimmed content. -/
def findElementByContent (content : String) (c : Container) :
    Option HtmlElement :=
  match c.exactText (jsTrim content) with
  | some e => some e
  | none => c.partialText (jsTrim content)

/-- `findTargetElement`: strategy 1 is the CSS-selector conversion (guarded by
a truthy `element_xpath`); strategy 2, tried only when the first yields no
element, is the content search (guarded by a truthy
`details.original_content`); if both fail the function logs a warning and
returns null. -/
def findTargetElement (issue : AccessibilityIssue) (c : Container) :
    Option HtmlElement :=
  match (if issue.element_xpath = "" then none
         else findElementBySelector issue.element_xpath c) with
  | some element => some element
  | none =>
    match issue.details.original_content with
    | none => none
    | some originalContent =>
      if originalContent = "" then none
      else findElementByContent originalContent c

/-- The `useState` cells of `DocumentViewer` (first variant). -/
structure ViewerState where
  isLoading : Bool
  error : Option String
  isDocumentRendered : Bool
deriving DecidableEq, Repr

/-- Start of `renderDocument` (after the guards): `setIsLoading(true);
setError(null); setIsDocumentRendered(false)`. -/
def renderStart (s : ViewerState) : ViewerState :=
  { s with isLoading := true, error := none, isDocumentRendered := false }

/-- Resolution of `renderDocument`: on success mark the document rendered; on
failure set the formatted error; the `finally` block resets `isLoading`. -/
def renderFinish (outcome : Except String Unit) (s : ViewerState) :
    ViewerState :=
  let s1 := match outcome with
    | .ok _ => { s with isDocumentRendered := true }
    | .error e => { s with error := some ("Failed to render document: " ++ e) }
  { s1 with isLoading := false }

/-- `DocumentViewer.renderDocument`, parameterised by the presence of the
document, the readiness of the container ref, and the combined outcome of the
file fetch plus docx-preview rendering. -/
def renderDocument (doc : Option Document) (containerReady : Bool)
    (outcome : Except String Unit) (s : ViewerState) : ViewerState :=
  match doc, containerReady with
  | some _, true => renderFinish outcome (renderStart s)
  | _, _ => s

/-- The render condition of the viewer spinner: `isLoading && ...`. -/
def showsLoadingSpinner (s : ViewerState) : Bool := s.isLoading

/-- The render condition of the viewer error alert: `error && ...`. -/
def showsErrorAlert (s : ViewerState) : Bool := s.error.isSome

end DocumentViewer

/-! ## IssueDetail, AI-suggestion variant (src/unnamed/part_000) -/

namespace IssueDetailAI

/-- The fields of the AI suggestion the save path depends on (the full
response carries more display-only fields). -/
structure Suggestion where
  suggested_text : String
  new_value : String
deriving DecidableEq, Repr

/-- The `useState` cells of the AI-suggestion `IssueDetail`. -/
structure DetailState where
  isEditing : Bool
  editedContent : String
  error : Option String
  isLoadingSuggestion : Bool
  suggestion : Option Suggestion
  showDiffPreview : Bool
deriving DecidableEq, Repr

/-- An invocation of the `onFixSave` callback. -/
structure FixSaveCall where
  issueId : String
  newContent : String
  changeType : ChangeType
deriving DecidableEq, Repr

/-- `handleSave` (part_000): guard `!issue || !editedContent.trim()` sets the
error and returns; otherwise `onFixSave` is called with the edited content and
a change type of suggested exactly when a suggestion is loaded, after
which editing and suggestion state are reset. Returns the new state and the
`onFixSave` invocation, if any. -/
def handleSave (issue : Option AccessibilityIssue) (s : DetailState) :
    DetailState × Option FixSaveCall :=
  match issue with
  | none => ({ s with error := some "Fix content cannot be empty" }, none)
  | some i =>
    if jsTrim s.editedContent = "" then
      ({ s with error := some "Fix content cannot be empty" }, none)
    else
      ({ s with isEditing := false
                error := none
                suggestion := none
                showDiffPreview := false },
       some { issueId := i.id
              newContent := s.editedContent
              changeType := if s.suggestion.isSome then ChangeType.suggested
                            else ChangeType.manual })

end IssueDetailAI

/-! ## IssueDetail, basic variant
(src/frontend/src/components/IssueDetail/index.tsx) -/

namespace IssueDetailBasic

/-- The `useState` cells of the basic `IssueDetail`. -/
structure DetailState where
  isEditing : Bool
  editedContent : String
  error : Option String
deriving DecidableEq, Repr

/-- `handleSave` (basic variant): same guard; `onFixSave` takes only the issue
id and the edited content. -/
def handleSave (issue : Option AccessibilityIssue) (s : DetailState) :
    DetailState × Option (String × String) :=
  match issue with
  | none => ({ s with error := some "Fix content cannot be empty" }, none)
  | some i =>
    if jsTrim s.editedContent = "" then
      ({ s with error := some "Fix content cannot be empty" }, none)
    else
      ({ s with isEditing := false, error := none },
       some (i.id, s.editedContent))

end IssueDetailBasic

/-! ## DocumentUploader (src/frontend/src/components/IssueDetail/index.tsx,
trailing section of the file) -/

namespace DocumentUploader

/-- A browser `File`: name plus MIME type (`File.type`). -/
structure JsFile where
  name : String
  mime : String
deriving DecidableEq, Repr

/-- The DOCX MIME type the uploader insists on. -/
def docxMime : String :=
  "application/vnd.openxmlformats-officedocument.wordprocessingml.document"

/-- The `useState` cells of `DocumentUploader`. -/
structure UploaderState where
  isUploading : Bool
  error : Option String
  uploadedFile : Option JsFile
deriving DecidableEq, Repr

/-- Initial state: `useState(false)`, `useState(null)`, `useState(null)`. -/
def initialState : UploaderState :=
  { isUploading := false, error := none, uploadedFile := none }

/-- `handleFileSelect`: nothing happens without a file; a non-DOCX file only
sets the error (early return before `setUploadedFile`); a DOCX file becomes
the pending upload and clears the error. -/
def handleFileSelect (file : Option JsFile) (s : UploaderState) :
    UploaderState :=
  match file with
  | none => s
  | some f =>
    if f.mime ≠ docxMime then
      { s with error := some "Please select a valid DOCX file" }
    else
      { s with uploadedFile := some f, error := none }

/-- `handleDrop`: a dropped DOCX file becomes the pending upload and clears
the error; anything else (wrong type, or no file) sets the error. -/
def handleDrop (file : Option JsFile) (s : UploaderState) : UploaderState :=
  match file with
  | some f =>
    if f.mime = docxMime then
      { s with uploadedFile := some f, error := none }
    else
      { s with error := some "Please drop a valid DOCX file" }
  | none => { s with error := some "Please drop a valid DOCX file" }

/-- Start of `handleUpload` (after the `!uploadedFile` guard):
`setIsUploading(true); setError(null)`. -/
def uploadStart (s : UploaderState) : UploaderState :=
  { s with isUploading := true, error := none }

/-- Resolution of `handleUpload`: success clears the pending file (and hands
the document to `onDocumentUploaded`); failure sets the error message; the
`finally` block resets `isUploading`. -/
def uploadFinish (outcome : Except String Document) (s : UploaderState) :
    UploaderState :=
  let s1 := match outcome with
    | .ok _ => { s with uploadedFile := none }
    | .error e => { s with error := some e }
  { s1 with isUploading := false }

/-- `handleUpload`, parameterised by the outcome of `documentApi.upload`.
Returns the new state and the file the upload request was issued for, if
any (the guard prevents a request when no file is pending). -/
def handleUpload (outcome : Except String Document) (s : UploaderState) :
    UploaderState × Option JsFile :=
  match s.uploadedFile with
  | none => (s, none)
  | some f => (uploadFinish outcome (uploadStart s), some f)

/-- The render condition of the upload-button spinner: `startIcon` is a
`CircularProgress` exactly when `isUploading`. -/
def uploadButtonShowsSpinner (s : UploaderState) : Bool := s.isUploading

/-- The render condition of the uploader error alert: `error && ...`. -/
def showsErrorAlert (s : UploaderState) : Bool := s.error.isSome

/-- The user-driven events of the uploader. -/
inductive UploaderEvent where
  | select (file : Option JsFile)
  | dropFile (file : Option JsFile)
  | upload (outcome : Except String Document)

/-- One event step; the second component is the file an upload request was
issued for during the step, if any. -/
def step (ev : UploaderEvent) (s : UploaderState) :
    UploaderState × Option JsFile :=
  match ev with
  | .select f => (handleFileSelect f s, none)
  | .dropFile f => (handleDrop f s, none)
  | .upload outcome => handleUpload outcome s

/-- Run a sequence of events from a state, collecting every file an upload
request was issued for. -/
def runFrom (s : UploaderState) : List UploaderEvent →
    UploaderState × List JsFile
  | [] => (s, [])
  | ev :: evs =>
    match step ev s with
    | (s1, none) => runFrom s1 evs
    | (s1, some f) => ((runFrom s1 evs).1, f :: (runFrom s1 evs).2)

/-- Run a sequence of events from the initial state. -/
def run (events : List UploaderEvent) : UploaderState × List JsFile :=
  runFrom initialState events

/-- Invariant: the pending upload, when present, is a DOCX file. -/
def pendingIsDocx (s : UploaderState) : Prop :=
  ∀ f, s.uploadedFile = some f → f.mime = docxMime

end DocumentUploader

/-! ## Concrete sample values used by witnesses and counterexamples -/

/-- A freshly uploaded document. -/
def sampleDocument : Document :=
  { id := "doc-1", filename := "report.docx", file_path := ""
    upload_date := "2026-01-01T00:00:00Z", status := DocStatus.uploaded }

/-- A detected issue whose locator is the first paragraph. -/
def sampleIssue : AccessibilityIssue :=
  { id := "issue-1", document_id := "doc-1", clause := "1.1.1"
    description := "Image missing alt text", status := "open"
    wcag_level := "A", details := { original_content := some "Hello" }
    element_xpath := "//w:p[1]", is_fixed := false }

/-- A staged change belonging to `sampleIssue`. -/
def sampleStagedChange : StagedChange :=
  { id := "chg-1", issue_id := "issue-1", original_content := "Hello"
    new_content := "Hello world", change_type := ChangeType.manual
    created_at := "2026-01-02T00:00:00Z", is_fixed := none }

/-- App state with a document loaded and an issue selected. -/
def appStateWithSelection : AppState :=
  { currentDocument := some sampleDocument
    selectedIssue := some sampleIssue
    stagedChanges := [], isApplyingChanges := false }

/-- App state holding one staged change (document field irrelevant: the
theorems override it). -/
def appStateWithChange : AppState :=
  { currentDocument := none, selectedIssue := none
    stagedChanges := [sampleStagedChange], isApplyingChanges := true }

/-- A successful apply-changes response. -/
def applyOkResult : ApplyChangesResult :=
  { success := true, message := "1 change applied" }

/-- A rendered container in which the selector for `//w:p[1]` resolves. -/
def highlightContainer : DocumentViewer.Container :=
  { query := fun sel =>
      if sel = "p:nth-of-type(1)" then some { tag := "p" } else none
    exactText := fun _ => none
    partialText := fun _ => none }

/-- Detail state with an AI suggestion loaded. -/
def detailStateWithSuggestion : IssueDetailAI.DetailState :=
  { isEditing := false, editedContent := "Figure 1: sales chart"
    error := none, isLoadingSuggestion := false
    suggestion := some { suggested_text := "Add alt text"
                         new_value := "Figure 1: sales chart" }
    showDiffPreview := true }

/-- The `onFixSave` call the save path produces from
`detailStateWithSuggestion`. -/
def suggestedCall : IssueDetailAI.FixSaveCall :=
  { issueId := "issue-1", newContent := "Figure 1: sales chart"
    changeType := ChangeType.suggested }

/-- Detail state whose edited content is whitespace only. -/
def emptyDetailState : IssueDetailAI.DetailState :=
  { isEditing := true, editedContent := "   ", error := none
    isLoadingSuggestion := false, suggestion := none
    showDiffPreview := false }

/-- A non-DOCX file. -/
def pdfFile : DocumentUploader.JsFile :=
  { name := "report.pdf", mime := "application/pdf" }

/-- A DOCX file. -/
def docxFile : DocumentUploader.JsFile :=
  { name := "report.docx", mime := DocumentUploader.docxMime }

/-- Select a DOCX file, then upload it successfully. -/
def uploadEvents : List DocumentUploader.UploaderEvent :=
  [ DocumentUploader.UploaderEvent.select (some docxFile)
  , DocumentUploader.UploaderEvent.upload (Except.ok sampleDocument) ]

/-! ## Claim theorems -/

/-- C5: for every document d, after `handleDocumentUploaded d` runs, the
current document is d, the selected issue is null, and the staged-changes
list is empty — switching to a new document always clears the prior issue
selection and discards all locally held staged changes. -/
theorem C5_documentUploaded_resets (d : Document) (s : AppState) :
    (handleDocumentUploaded d s).currentDocument = some d
    ∧ (handleDocumentUploaded d s).selectedIssue = none
    ∧ (handleDocumentUploaded d s).stagedChanges = [] :=
  ⟨rfl, rfl, rfl⟩

/-- C8: `handleClearChanges` and `handleRemoveChange` always perform their
local staged-changes update — emptying the list, respectively filtering out
the change with the given id — whether the backend request succeeds or fails:
the catch branch performs the same local state update as the success path. -/
theorem C8_local_update_even_on_failure (s : AppState) (d : Document)
    (changeId : String) (clearOutcome : Except String ClearChangesResult)
    (removeOutcome : Except String RemoveChangeResult) :
    (handleClearChanges { s with currentDocument := some d }
        clearOutcome).1.stagedChanges = []
    ∧ (handleRemoveChange s changeId removeOutcome).1.stagedChanges
        = s.stagedChanges.filter (fun c => c.id != changeId) := by
  constructor
  · cases clearOutcome <;> rfl
  · cases removeOutcome <;> rfl

/-- C7: every async request sets the loading flag of its component at the start
and resets it on resolution, success or failure alike (the `finally` block),
and the view renders its loading indicator exactly while the flag is true.
Covered: issue loading and scanning in IssuePanel, document rendering in
DocumentViewer, uploading in DocumentUploader; the composition conjuncts tie
the start/finish phases back to the full handlers. -/
theorem C7_loading_flag_lifecycle :
    (∀ s, (IssuePanel.loadIssuesStart s).isLoading = true)
    ∧ (∀ outcome s, (IssuePanel.loadIssuesFinish outcome s).isLoading = false)
    ∧ (∀ (d : Document) outcome s,
        IssuePanel.loadIssues (some d) outcome s
          = IssuePanel.loadIssuesFinish outcome (IssuePanel.loadIssuesStart s))
    ∧ (∀ s, IssuePanel.showsLoadingSpinner s = s.isLoading)
    ∧ (∀ s, (IssuePanel.scanStart s).isScanning = true)
    ∧ (∀ doc so lo s, (IssuePanel.scanFinish doc so lo s).isScanning = false)
    ∧ (∀ (d : Document) so lo s,
        IssuePanel.handleScanDocument (some d) so lo s
          = IssuePanel.scanFinish (some d) so lo (IssuePanel.scanStart s))
    ∧ (∀ s, IssuePanel.scanButtonShowsSpinner s = s.isScanning)
    ∧ (∀ s, (DocumentViewer.renderStart s).isLoading = true)
    ∧ (∀ outcome s, (DocumentViewer.renderFinish outcome s).isLoading = false)
    ∧ (∀ (d : Document) outcome s,
        DocumentViewer.renderDocument (some d) true outcome s
          = DocumentViewer.renderFinish outcome (DocumentViewer.renderStart s))
    ∧ (∀ s, DocumentViewer.showsLoadingSpinner s = s.isLoading)
    ∧ (∀ s, (DocumentUploader.uploadStart s).isUploading = true)
    ∧ (∀ outcome s, (DocumentUploader.uploadFinish outcome s).isUploading = false)
    ∧ (∀ (f : DocumentUploader.JsFile) outcome
        (s : DocumentUploader.UploaderState),
        DocumentUploader.handleUpload outcome { s with uploadedFile := some f }
          = (DocumentUploader.uploadFinish outcome
              (DocumentUploader.uploadStart { s with uploadedFile := some f }),
             some f))
    ∧ (∀ s, DocumentUploader.uploadButtonShowsSpinner s = s.isUploading) :=
  ⟨fun _ => rfl, fun _ _ => rfl, fun _ _ _ => rfl, fun _ => rfl,
   fun _ => rfl, fun _ _ _ _ => rfl, fun _ _ _ _ => rfl, fun _ => rfl,
   fun _ => rfl, fun _ _ => rfl, fun _ _ _ => rfl, fun _ => rfl,
   fun _ => rfl, fun _ _ => rfl, fun _ _ _ => rfl, fun _ => rfl⟩

/-- C2 counterexample: with a document loaded and an issue selected, a
failing stage-change request in `App.handleFixSave` produces only a console
write — no inline alert is shown to the user (and `App` holds no error state
cell at all); likewise for apply, clear and remove. This refutes the claim
that every failing request is surfaced via an inline alert. -/
theorem C2_counterexample :
    (handleFixSave appStateWithSelection "issue-1" "Figure 1: sales chart"
        ChangeType.manual (Except.error "Network Error")).2
      = [UiEffect.consoleError "Failed to stage change: Network Error"]
    ∧ ((handleFixSave appStateWithSelection "issue-1" "Figure 1: sales chart"
        ChangeType.manual (Except.error "Network Error")).2.all
          (fun ef => !isInlineAlert ef)) = true
    ∧ ((handleApplyChanges appStateWithSelection
        (Except.error "Network Error")).2.all
          (fun ef => !isInlineAlert ef)) = true
    ∧ ((handleClearChanges appStateWithSelection
        (Except.error "Network Error")).2.all
          (fun ef => !isInlineAlert ef)) = true
    ∧ ((handleRemoveChange appStateWithSelection "chg-1"
        (Except.error "Network Error")).2.all
          (fun ef => !isInlineAlert ef)) = true := by
  refine ⟨rfl, rfl, rfl, rfl, rfl⟩

/-- C2 (amended): failures in the view components — issue loading and
scanning in IssuePanel, document rendering in DocumentViewer, uploading in
DocumentUploader — are caught at the call site, converted to a string, and
shown via an inline alert; the four request-initiating handlers of `App`
(staging, applying, clearing, removing a change) catch their failures but
only write to the developer console, never an inline alert. -/
theorem C2_amended_error_surfacing :
    (∀ (d : Document) (e : String) (s : IssuePanel.PanelState),
        IssuePanel.errorAlertText (IssuePanel.loadIssues (some d)
            (Except.error e) s) = some e
        ∧ IssuePanel.showsErrorAlert (IssuePanel.loadIssues (some d)
            (Except.error e) s) = true)
    ∧ (∀ (d : Document) (e : String) lo (s : IssuePanel.PanelState),
        IssuePanel.errorAlertText (IssuePanel.handleScanDocument (some d)
            (Except.error e) lo s) = some e
        ∧ IssuePanel.showsErrorAlert (IssuePanel.handleScanDocument (some d)
            (Except.error e) lo s) = true)
    ∧ (∀ (d : Document) (e : String) (s : DocumentViewer.ViewerState),
        (DocumentViewer.renderDocument (some d) true (Except.error e) s).error
            = some ("Failed to render document: " ++ e)
        ∧ DocumentViewer.showsErrorAlert
            (DocumentViewer.renderDocument (some d) true (Except.error e) s)
            = true)
    ∧ (∀ (f : DocumentUploader.JsFile) (e : String)
        (s : DocumentUploader.UploaderState),
        (DocumentUploader.handleUpload (Except.error e)
            { s with uploadedFile := some f }).1.error = some e
        ∧ DocumentUploader.showsErrorAlert
            (DocumentUploader.handleUpload (Except.error e)
              { s with uploadedFile := some f }).1 = true)
    ∧ (∀ (s : AppState) (d : Document) (i : AccessibilityIssue)
        (issueId newContent : String) (ct : ChangeType) (e : String),
        (handleFixSave
            { s with currentDocument := some d, selectedIssue := some i }
            issueId newContent ct (Except.error e)).2
          = [UiEffect.consoleError ("Failed to stage change: " ++ e)])
    ∧ (∀ (s : AppState) (d : Document) (e : String),
        (handleApplyChanges { s with currentDocument := some d }
            (Except.error e)).2
          = [UiEffect.consoleError ("Error applying changes: " ++ e)])
    ∧ (∀ (s : AppState) (d : Document) (e : String),
        (handleClearChanges { s with currentDocument := some d }
            (Except.error e)).2
          = [UiEffect.consoleError ("Failed to clear staged changes: " ++ e)])
    ∧ (∀ (s : AppState) (changeId e : String),
        (handleRemoveChange s changeId (Except.error e)).2
          = [UiEffect.consoleError ("Failed to remove staged change: " ++ e)])
    ∧ (∀ m : String, isInlineAlert (UiEffect.consoleError m) = false) :=
  ⟨fun _ _ _ => ⟨rfl, rfl⟩, fun _ _ _ _ => ⟨rfl, rfl⟩,
   fun _ _ _ => ⟨rfl, rfl⟩, fun _ _ _ => ⟨rfl, rfl⟩,
   fun _ _ _ _ _ _ _ => rfl, fun _ _ _ => rfl, fun _ _ _ => rfl,
   fun _ _ _ => rfl, fun _ => rfl⟩

/-- C4: when the user submits the staged batch with a document loaded, the
local staged-changes list is emptied iff the backend reports
`result.success`; on a thrown request or `success = false` the list is left
unchanged; and `isApplyingChanges` is reset to false in every outcome. -/
theorem C4_applyChanges_success_iff (s : AppState) (d : Document)
    (outcome : Except String ApplyChangesResult) :
    (handleApplyChanges { s with currentDocument := some d }
        outcome).1.isApplyingChanges = false
    ∧ (∀ r, outcome = Except.ok r → r.success = true →
        (handleApplyChanges { s with currentDocument := some d }
          outcome).1.stagedChanges = [])
    ∧ (∀ r, outcome = Except.ok r → r.success = false →
        (handleApplyChanges { s with currentDocument := some d }
          outcome).1.stagedChanges = s.stagedChanges)
    ∧ (∀ e, outcome = Except.error e →
        (handleApplyChanges { s with currentDocument := some d }
          outcome).1.stagedChanges = s.stagedChanges)
    ∧ (s.stagedChanges ≠ [] →
        ((handleApplyChanges { s with currentDocument := some d }
            outcome).1.stagedChanges = []
          ↔ ∃ r, outcome = Except.ok r ∧ r.success = true)) := by
  rcases outcome with e | r
  · refine ⟨rfl, ?_, ?_, ?_, ?_⟩
    · intro r hr; exact Except.noConfusion hr
    · intro r hr; exact Except.noConfusion hr
    · intro e' _; rfl
    · intro hne
      constructor
      · intro h; exact absurd h hne
      · rintro ⟨r, hr, _⟩; exact Except.noConfusion hr
  · rcases r with ⟨succ, msg⟩
    cases succ
    · refine ⟨rfl, ?_, ?_, ?_, ?_⟩
      · intro r hr hs
        cases hr
        exact Bool.noConfusion hs
      · intro r _ _; rfl
      · intro e hr; exact Except.noConfusion hr
      · intro hne
        constructor
        · intro h; exact absurd h hne
        · rintro ⟨r, hr, hs⟩
          cases hr
          exact Bool.noConfusion hs
    · refine ⟨rfl, ?_, ?_, ?_, ?_⟩
      · intro r _ _; rfl
      · intro r hr hs
        cases hr
        exact Bool.noConfusion hs
      · intro e hr; exact Except.noConfusion hr
      · intro _
        exact ⟨fun _ => ⟨⟨true, msg⟩, rfl, rfl⟩, fun _ => rfl⟩

/-- C4 witness: applying a successful batch from a state holding one staged
change empties the local list and resets the applying flag. -/
theorem C4_witness :
    (handleApplyChanges
        { appStateWithChange with currentDocument := some sampleDocument }
        (Except.ok applyOkResult)).1.stagedChanges = []
    ∧ (handleApplyChanges
        { appStateWithChange with currentDocument := some sampleDocument }
        (Except.ok applyOkResult)).1.isApplyingChanges = false :=
  ⟨(C4_applyChanges_success_iff appStateWithChange sampleDocument
      (Except.ok applyOkResult)).2.1 applyOkResult rfl rfl,
   (C4_applyChanges_success_iff appStateWithChange sampleDocument
      (Except.ok applyOkResult)).1⟩

/-- C6: every staged change carries a change-type tag that is either manual
or suggested; in the AI IssueDetail save path the tag is suggested exactly
when a suggestion is loaded at save time and manual otherwise; and the
stageChange API call defaults the tag to manual when none is supplied. -/
theorem C6_change_type_tag :
    (∀ c : ChangeType, c = ChangeType.manual ∨ c = ChangeType.suggested)
    ∧ (∀ (i : AccessibilityIssue) (s : IssueDetailAI.DetailState)
        (call : IssueDetailAI.FixSaveCall),
        (IssueDetailAI.handleSave (some i) s).2 = some call →
        (call.changeType = ChangeType.suggested ↔ s.suggestion.isSome = true)
        ∧ (call.changeType = ChangeType.manual ↔ s.suggestion.isSome = false))
    ∧ (∀ (newContent : String) (fixedSnippet : Option String),
        (stageChangeBody newContent none fixedSnippet).change_type
          = ChangeType.manual) := by
  refine ⟨?_, ?_, ?_⟩
  · intro c; cases c
    · exact Or.inl rfl
    · exact Or.inr rfl
  · intro i s call h
    unfold IssueDetailAI.handleSave at h
    by_cases ht : jsTrim s.editedContent = ""
    · simp only [ht, if_pos] at h
      exact Option.noConfusion h
    · simp only [ht, if_neg, ite_false] at h
      injection h with h1
      subst h1
      cases hs : s.suggestion.isSome <;> simp [hs]
  · intro newContent fixedSnippet; rfl

/-- C6 witness: saving with a loaded suggestion stages a change tagged
suggested. -/
theorem C6_witness :
    (IssueDetailAI.handleSave (some sampleIssue) detailStateWithSuggestion).2
      = some suggestedCall
    ∧ (suggestedCall.changeType = ChangeType.suggested
        ↔ detailStateWithSuggestion.suggestion.isSome = true) :=
  ⟨by decide,
   ((C6_change_type_tag.2.1 sampleIssue detailStateWithSuggestion
      suggestedCall) (by decide)).1⟩

/-- C10: the stage callback is never invoked with content whose trim is
empty: when `editedContent.trim()` is falsy, `handleSave` (both IssueDetail
variants) sets the error message and returns without calling `onFixSave`,
leaving the editing state unchanged. -/
theorem C10_no_empty_fix_staged :
    (∀ (issue : Option AccessibilityIssue) (s : IssueDetailAI.DetailState)
        (call : IssueDetailAI.FixSaveCall),
        (IssueDetailAI.handleSave issue s).2 = some call →
        jsTrim call.newContent ≠ "")
    ∧ (∀ (issue : Option AccessibilityIssue) (s : IssueDetailAI.DetailState),
        jsTrim s.editedContent = "" →
        (IssueDetailAI.handleSave issue s).1.error
            = some "Fix content cannot be empty"
        ∧ (IssueDetailAI.handleSave issue s).1.isEditing = s.isEditing
        ∧ (IssueDetailAI.handleSave issue s).1.editedContent = s.editedContent
        ∧ (IssueDetailAI.handleSave issue s).1.suggestion = s.suggestion
        ∧ (IssueDetailAI.handleSave issue s).2 = none)
    ∧ (∀ (issue : Option AccessibilityIssue) (s : IssueDetailBasic.DetailState)
        (pr : String × String),
        (IssueDetailBasic.handleSave issue s).2 = some pr → jsTrim pr.2 ≠ "")
    ∧ (∀ (issue : Option AccessibilityIssue)
        (s : IssueDetailBasic.DetailState),
        jsTrim s.editedContent = "" →
        (IssueDetailBasic.handleSave issue s).1.error
            = some "Fix content cannot be empty"
        ∧ (IssueDetailBasic.handleSave issue s).1.isEditing = s.isEditing
        ∧ (IssueDetailBasic.handleSave issue s).1.editedContent
            = s.editedContent
        ∧ (IssueDetailBasic.handleSave issue s).2 = none) := by
  refine ⟨?_, ?_, ?_, ?_⟩
  · intro issue s call h
    rcases issue with _ | i
    · exact Option.noConfusion h
    · unfold IssueDetailAI.handleSave at h
      by_cases ht : jsTrim s.editedContent = ""
      · simp only [ht, if_pos] at h
        exact Option.noConfusion h
      · simp only [ht, if_neg, ite_false] at h
        injection h with h1
        subst h1
        exact ht
  · intro issue s ht
    rcases issue with _ | i
    · exact ⟨rfl, rfl, rfl, rfl, rfl⟩
    · refine ⟨?_, ?_, ?_, ?_, ?_⟩ <;>
        simp only [IssueDetailAI.handleSave, ht, ite_true]
  · intro issue s pr h
    rcases issue with _ | i
    · exact Option.noConfusion h
    · unfold IssueDetailBasic.handleSave at h
      by_cases ht : jsTrim s.editedContent = ""
      · simp only [ht, if_pos] at h
        exact Option.noConfusion h
      · simp only [ht, if_neg, ite_false] at h
        injection h with h1
        subst h1
        exact ht
  · intro issue s ht
    rcases issue with _ | i
    · exact ⟨rfl, rfl, rfl, rfl⟩
    · refine ⟨?_, ?_, ?_, ?_⟩ <;>
        simp only [IssueDetailBasic.handleSave, ht, ite_true]

/-- C10 witness: whitespace-only content is rejected with the error and no
callback invocation. -/
theorem C10_witness :
    jsTrim emptyDetailState.editedContent = ""
    ∧ (IssueDetailAI.handleSave (some sampleIssue) emptyDetailState).1.error
        = some "Fix content cannot be empty"
    ∧ (IssueDetailAI.handleSave (some sampleIssue) emptyDetailState).2
        = none :=
  ⟨by decide,
   (C10_no_empty_fix_staged.2.1 (some sampleIssue) emptyDetailState
      (by decide)).1,
   (C10_no_empty_fix_staged.2.1 (some sampleIssue) emptyDetailState
      (by decide)).2.2.2.2⟩

/-- C3 counterexample: the first api.ts variant function `documentApi.render` issues
GET /documents/$-id/render, an endpoint absent from the REST surface the spec
lists — so the client surface is not exactly the listed one. -/
theorem C3_counterexample :
    documentApi_render_request "doc-1"
      = { method := HttpMethod.get, path := "/documents/doc-1/render" }
    ∧ renderEndpoint ∈ clientEndpoints
    ∧ renderEndpoint ∉ specEndpoints := by
  refine ⟨rfl, by decide, by decide⟩

/-- C3 (amended): every API-client function except the first-variant
`documentApi.render` issues its request with the listed HTTP method to the
listed path template, the listed surface is fully covered by the client, and
`render` additionally issues GET /documents/$-id/render. The trailing
conjuncts tie each request builder to its endpoint template. -/
theorem C3_amended_rest_surface :
    (clientEndpoints.all
        (fun ep => ep == renderEndpoint || specEndpoints.contains ep)) = true
    ∧ (specEndpoints.all (fun ep => clientEndpoints.contains ep)) = true
    ∧ documentApi_upload_request
        = { method := HttpMethod.post
            path := instantiatePath (PathPattern.exact "/documents/upload") "" }
    ∧ documentApi_list_request
        = { method := HttpMethod.get
            path := instantiatePath (PathPattern.exact "/documents") "" }
    ∧ (∀ id, documentApi_render_request id
        = { method := HttpMethod.get
            path := instantiatePath (PathPattern.around "/documents/" "/render") id })
    ∧ (∀ id, documentApi_getDocumentFile_request id
        = { method := HttpMethod.get
            path := instantiatePath (PathPattern.around "/documents/" "/file") id })
    ∧ (∀ id, documentApi_scan_request id
        = { method := HttpMethod.get
            path := instantiatePath (PathPattern.around "/documents/" "/scan") id })
    ∧ (∀ id, issuesApi_getDocumentIssues_request id
        = { method := HttpMethod.get
            path := instantiatePath (PathPattern.around "/issues/" "") id })
    ∧ (∀ id, issuesApi_suggestFix_request id
        = { method := HttpMethod.post
            path := instantiatePath (PathPattern.around "/issues/" "/suggest-fix") id })
    ∧ (∀ id, issuesApi_stageChange_request id
        = { method := HttpMethod.post
            path := instantiatePath (PathPattern.around "/issues/" "/stage-change") id })
    ∧ (∀ id, changesApi_getStagedChanges_request id
        = { method := HttpMethod.get
            path := instantiatePath (PathPattern.around "/changes/" "") id })
    ∧ (∀ id, changesApi_applyChanges_request id
        = { method := HttpMethod.post
            path := instantiatePath (PathPattern.around "/documents/" "/apply-changes") id })
    ∧ (∀ id, changesApi_clearStagedChanges_request id
        = { method := HttpMethod.post
            path := instantiatePath (PathPattern.around "/changes/" "/clear") id })
    ∧ (∀ id, changesApi_removeChange_request id
        = { method := HttpMethod.delete
            path := instantiatePath (PathPattern.around "/changes/" "") id })
    ∧ healthApi_check_request
        = { method := HttpMethod.get
            path := instantiatePath (PathPattern.exact "/health") "" } :=
  ⟨by decide, by decide, rfl, rfl, fun _ => rfl, fun _ => rfl, fun _ => rfl,
   fun id => by
     show Request.mk HttpMethod.get ("/issues/" ++ id)
       = Request.mk HttpMethod.get ("/issues/" ++ id ++ "")
     rw [String.append_empty],
   fun _ => rfl, fun _ => rfl,
   fun id => by
     show Request.mk HttpMethod.get ("/changes/" ++ id)
       = Request.mk HttpMethod.get ("/changes/" ++ id ++ "")
     rw [String.append_empty],
   fun _ => rfl, fun _ => rfl,
   fun id => by
     show Request.mk HttpMethod.delete ("/changes/" ++ id)
       = Request.mk HttpMethod.delete ("/changes/" ++ id ++ "")
     rw [String.append_empty],
   rfl⟩

/-- C1: `findTargetElement` tries exactly two strategies in order — first the
CSS-selector conversion of `element_xpath` queried against the rendered
container, then, only if that yields no element, the content-based search on
`details.original_content`; if both strategies fail it returns null (a
warning is logged and no error is raised). -/
theorem C1_findTargetElement_two_strategies (issue : AccessibilityIssue)
    (c : DocumentViewer.Container) :
    (∀ e, issue.element_xpath ≠ "" →
        DocumentViewer.findElementBySelector issue.element_xpath c = some e →
        DocumentViewer.findTargetElement issue c = some e)
    ∧ (∀ content e,
        (issue.element_xpath = ""
          ∨ DocumentViewer.findElementBySelector issue.element_xpath c = none) →
        issue.details.original_content = some content → content ≠ "" →
        DocumentViewer.findElementByContent content c = some e →
        DocumentViewer.findTargetElement issue c = some e)
    ∧ ((issue.element_xpath = ""
          ∨ DocumentViewer.findElementBySelector issue.element_xpath c = none) →
        (∀ content, issue.details.original_content = some content →
            content = "" ∨ DocumentViewer.findElementByContent content c = none) →
        DocumentViewer.findTargetElement issue c = none) := by
  refine ⟨?_, ?_, ?_⟩
  · intro e hx hsel
    unfold DocumentViewer.findTargetElement
    rw [if_neg hx, hsel]
  · intro content e hfirst hcontent hne hfind
    have h1 : (if issue.element_xpath = "" then none
        else DocumentViewer.findElementBySelector issue.element_xpath c)
        = (none : Option DocumentViewer.HtmlElement) := by
      rcases hfirst with h | h
      · rw [if_pos h]
      · rw [h, ite_self]
    unfold DocumentViewer.findTargetElement
    rw [h1, hcontent]
    simp only []
    rw [if_neg hne, hfind]
  · intro hfirst hall
    have h1 : (if issue.element_xpath = "" then none
        else DocumentViewer.findElementBySelector issue.element_xpath c)
        = (none : Option DocumentViewer.HtmlElement) := by
      rcases hfirst with h | h
      · rw [if_pos h]
      · rw [h, ite_self]
    unfold DocumentViewer.findTargetElement
    rw [h1]
    rcases hoc : issue.details.original_content with _ | content
    · rfl
    · show (if content = "" then none
          else DocumentViewer.findElementByContent content c) = none
      rcases hall content hoc with h | h
      · rw [if_pos h]
      · by_cases hc : content = ""
        · rw [if_pos hc]
        · rw [if_neg hc]
          exact h

/-- C1 witness: for the sample issue the XPath `//w:p[1]` converts to the
selector `p:nth-of-type(1)`, which resolves in the sample container, so the
first strategy already yields the element. -/
theorem C1_witness :
    sampleIssue.element_xpath ≠ ""
    ∧ DocumentViewer.findElementBySelector sampleIssue.element_xpath
        highlightContainer = some { tag := "p" }
    ∧ DocumentViewer.findTargetElement sampleIssue highlightContainer
        = some { tag := "p" } :=
  ⟨by decide, by decide,
   (C1_findTargetElement_two_strategies sampleIssue highlightContainer).1
     { tag := "p" } (by decide) (by decide)⟩

/-- Helper for C9: one uploader step preserves the pending-file invariant,
and any upload request it issues is for the invariant-protected file. -/
theorem uploaderStep_keeps_pendingIsDocx (ev : DocumentUploader.UploaderEvent)
    (s : DocumentUploader.UploaderState)
    (h : DocumentUploader.pendingIsDocx s) :
    DocumentUploader.pendingIsDocx (DocumentUploader.step ev s).1
    ∧ (∀ f, (DocumentUploader.step ev s).2 = some f →
        f.mime = DocumentUploader.docxMime) := by
  cases ev with
  | select file =>
    rcases file with _ | f
    · exact ⟨h, fun f hf => Option.noConfusion hf⟩
    · by_cases hm : f.mime = DocumentUploader.docxMime
      · refine ⟨?_, fun g hg => Option.noConfusion hg⟩
        intro g hg
        simp only [DocumentUploader.step, DocumentUploader.handleFileSelect,
          hm, ne_eq, not_true_eq_false, ite_false] at hg
        injection hg with hg1
        exact hg1 ▸ hm
      · refine ⟨?_, fun g hg => Option.noConfusion hg⟩
        intro g hg
        simp only [DocumentUploader.step, DocumentUploader.handleFileSelect,
          hm, ne_eq, not_false_eq_true, ite_true] at hg
        exact h g hg
  | dropFile file =>
    rcases file with _ | f
    · exact ⟨fun g hg => h g hg, fun g hg => Option.noConfusion hg⟩
    · by_cases hm : f.mime = DocumentUploader.docxMime
      · refine ⟨?_, fun g hg => Option.noConfusion hg⟩
        intro g hg
        simp only [DocumentUploader.step, DocumentUploader.handleDrop, hm,
          ite_true] at hg
        injection hg with hg1
        exact hg1 ▸ hm
      · refine ⟨?_, fun g hg => Option.noConfusion hg⟩
        intro g hg
        simp only [DocumentUploader.step, DocumentUploader.handleDrop, hm,
          ite_false] at hg
        exact h g hg
  | upload outcome =>
    rcases hs : s.uploadedFile with _ | f
    · constructor
      · intro g hg
        simp only [DocumentUploader.step, DocumentUploader.handleUpload,
          hs] at hg
        exact h g (hs ▸ hg)
      · intro g hg
        simp only [DocumentUploader.step, DocumentUploader.handleUpload,
          hs] at hg
        exact Option.noConfusion hg
    · constructor
      · intro g hg
        simp only [DocumentUploader.step, DocumentUploader.handleUpload, hs,
          DocumentUploader.uploadFinish, DocumentUploader.uploadStart] at hg
        rcases outcome with e | d
        · simp only [] at hg
          exact h g (hs.trans (by exact hg ▸ rfl))
        · simp only [] at hg
          exact Option.noConfusion hg
      · intro g hg
        simp only [DocumentUploader.step, DocumentUploader.handleUpload,
          hs] at hg
        injection hg with hg1
        exact hg1 ▸ h f hs

/-- Helper for C9: running any event sequence from a state whose pending file
is DOCX only ever issues upload requests for DOCX files. -/
theorem uploaderRunFrom_docx_only (events : List DocumentUploader.UploaderEvent) :
    ∀ (s : DocumentUploader.UploaderState), DocumentUploader.pendingIsDocx s →
    ∀ f, f ∈ (DocumentUploader.runFrom s events).2 →
      f.mime = DocumentUploader.docxMime := by
  induction events with
  | nil =>
    intro s _ f hf
    simp only [DocumentUploader.runFrom, List.not_mem_nil] at hf
  | cons ev evs ih =>
    intro s h f hf
    obtain ⟨hinv, hreq⟩ := uploaderStep_keeps_pendingIsDocx ev s h
    unfold DocumentUploader.runFrom at hf
    rcases hstep : DocumentUploader.step ev s with ⟨s1, req⟩
    rw [hstep] at hf hinv hreq
    rcases req with _ | g
    · exact ih s1 hinv f hf
    · simp only [List.mem_cons] at hf
      rcases hf with rfl | hf
      · exact hreq f rfl
      · exact ih s1 hinv f hf

/-- C9: a selected or dropped file whose MIME type is not the DOCX type only
sets an inline error and never becomes the pending upload; a DOCX file is
accepted and clears any prior error; consequently no upload request is ever
issued for a non-DOCX file, on any event sequence from the initial state. -/
theorem C9_docx_gatekeeping :
    (∀ (f : DocumentUploader.JsFile) (s : DocumentUploader.UploaderState),
        f.mime ≠ DocumentUploader.docxMime →
        (DocumentUploader.handleFileSelect (some f) s).uploadedFile
            = s.uploadedFile
        ∧ (DocumentUploader.handleFileSelect (some f) s).error
            = some "Please select a valid DOCX file")
    ∧ (∀ (f : DocumentUploader.JsFile) (s : DocumentUploader.UploaderState),
        f.mime ≠ DocumentUploader.docxMime →
        (DocumentUploader.handleDrop (some f) s).uploadedFile
            = s.uploadedFile
        ∧ (DocumentUploader.handleDrop (some f) s).error
            = some "Please drop a valid DOCX file")
    ∧ (∀ (f : DocumentUploader.JsFile) (s : DocumentUploader.UploaderState),
        f.mime = DocumentUploader.docxMime →
        (DocumentUploader.handleFileSelect (some f) s).uploadedFile = some f
        ∧ (DocumentUploader.handleFileSelect (some f) s).error = none)
    ∧ (∀ (f : DocumentUploader.JsFile) (s : DocumentUploader.UploaderState),
        f.mime = DocumentUploader.docxMime →
        (DocumentUploader.handleDrop (some f) s).uploadedFile = some f
        ∧ (DocumentUploader.handleDrop (some f) s).error = none)
    ∧ (∀ (events : List DocumentUploader.UploaderEvent)
        (f : DocumentUploader.JsFile),
        f ∈ (DocumentUploader.run events).2 →
        f.mime = DocumentUploader.docxMime) := by
  refine ⟨?_, ?_, ?_, ?_, ?_⟩
  · intro f s hm
    constructor <;>
      simp only [DocumentUploader.handleFileSelect, hm, ne_eq,
        not_false_eq_true, ite_true]
  · intro f s hm
    constructor <;> simp only [DocumentUploader.handleDrop, hm, ite_false]
  · intro f s hm
    constructor <;>
      simp only [DocumentUploader.handleFileSelect, hm, ne_eq,
        not_true_eq_false, ite_false]
  · intro f s hm
    constructor <;> simp only [DocumentUploader.handleDrop, hm, ite_true]
  · intro events f hf
    exact uploaderRunFrom_docx_only events DocumentUploader.initialState
      (fun g hg => Option.noConfusion hg) f hf

/-- C9 witness: a PDF selection is rejected without becoming the pending
upload, while the DOCX event sequence leads to an upload request whose file
is DOCX-typed. -/
theorem C9_witness :
    pdfFile.mime ≠ DocumentUploader.docxMime
    ∧ (DocumentUploader.handleFileSelect (some pdfFile)
        DocumentUploader.initialState).uploadedFile = none
    ∧ (DocumentUploader.handleFileSelect (some pdfFile)
        DocumentUploader.initialState).error
        = some "Please select a valid DOCX file"
    ∧ docxFile ∈ (DocumentUploader.run uploadEvents).2
    ∧ docxFile.mime = DocumentUploader.docxMime :=
  ⟨by decide,
   (C9_docx_gatekeeping.1 pdfFile DocumentUploader.initialState
      (by decide)).1,
   (C9_docx_gatekeeping.1 pdfFile DocumentUploader.initialState
      (by decide)).2,
   by decide,
   C9_docx_gatekeeping.2.2.2.2 uploadEvents docxFile (by decide)⟩
